import Mathlib

/-!
Verification of the `write_ref` crate (`src/lib.rs`).

The crate provides two sealed traits:

* `WriteRef`, implemented only for `&'a mut T`, with
  `fn write(&mut self, t: T) { **self = t; }`;
* `WriteSlice`, implemented only for `&'a mut [T]`, with
  `fn write_elem(&mut self, idx: usize, t: T) { self[idx] = t; }`,
  which panics when `idx` is out of bounds.

A storage cell behind `&mut T` is modelled by explicit state passing: the
operation takes the cell's current content and returns its new content.
A slice behind `&mut [T]` is modelled as a `List T`; the panicking indexed
assignment `self[idx] = t` is modelled as an `Option`-valued function where
`none` is the panic outcome and `some` is normal return with the new contents.
-/

/-- `fn write(&mut self, t: T) { **self = t; }` from
`impl<'a, T: 'a> WriteRef for &'a mut T`: the cell's new content is `t`,
whatever it held before. -/
def WriteRef.write {T : Type} (cell : T) (t : T) : T := t

/-- `fn write_elem(&mut self, idx: usize, t: T) { self[idx] = t; }` from
`impl<'a, T: 'a> WriteSlice for &'a mut [T]`. Rust's `IndexMut` on a slice
panics when `idx >= self.len()`; `none` models the panic, `some` the normal
return carrying the updated slice contents. -/
def WriteSlice.write_elem {T : Type} (s : List T) (idx : Nat) (t : T) :
    Option (List T) :=
  if idx < s.length then some (s.set idx t) else none

/-- Modelled from the spec: the older wrapper-struct design's scalar handle
`WriteHandle<T>` (spec §3), which is not present under `src/`. It wraps an
exclusive borrow of a storage location holding one value of type `T`; the
borrowed cell's content is the field `cell`. -/
structure WriteHandle (T : Type) where
  cell : T
deriving DecidableEq, Repr

/-- Modelled from the spec: `write(value: T)` of the wrapper-struct scalar
handle (spec §4.1) "replaces the referenced storage's content with `value`". -/
def WriteHandle.write {T : Type} (h : WriteHandle T) (value : T) :
    WriteHandle T :=
  { cell := value }

/-- Modelled from the spec: the older wrapper-struct design's sequence handle
`WriteSliceHandle<T>` (spec §3), not present under `src/`. It wraps an
exclusive borrow of a contiguous fixed-length sequence of `T`. -/
structure WriteSliceHandle (T : Type) where
  elems : List T
deriving DecidableEq, Repr

/-- Modelled from the spec: `write_at(index: usize, value: T)` of the
wrapper-struct sequence handle (spec §4.2) "replaces the element at `index`
with `value`"; an out-of-range index is a fatal contract violation (`none`). -/
def WriteSliceHandle.write_at {T : Type} (h : WriteSliceHandle T) (index : Nat)
    (value : T) : Option (WriteSliceHandle T) :=
  if index < h.elems.length then some { elems := h.elems.set index value }
  else none

/-- Conversion of an exclusive mutable reference into the trait-based scalar
write handle: `impl<'a, T: 'a> WriteRef for &'a mut T` makes the reference
itself the handle, so the conversion is the identity on the referenced cell. -/
def toWriteRef {T : Type} (cell : T) : T := cell

/-- Conversion of an exclusive mutable reference into the wrapper-struct
scalar handle. Modelled from the spec: the handle is "obtainable only from an
exclusive mutable reference to T" (spec §4.1) and simply wraps the borrow. -/
def WriteHandle.fromMut {T : Type} (cell : T) : WriteHandle T :=
  { cell := cell }

/-- C1: for every type `T`, every cell content and every value `v`, `write v`
through the trait handle leaves the cell holding exactly `v`, regardless of
its prior content; the operation is a total function, so it cannot fail. -/
theorem writeRef_write_overwrites {T : Type} (cell v : T) :
    WriteRef.write cell v = v := rfl

/-- C2: for every slice and every in-bounds index `i`, `write_elem i v`
returns normally and the element at position `i` of the result is `v`. -/
theorem writeSlice_write_elem_in_bounds {T : Type} (s : List T) (i : Nat)
    (v : T) (h : i < s.length) :
    ∃ s', WriteSlice.write_elem s i v = some s' ∧ s'.get? i = some v := by
  refine ⟨s.set i v, ?_, ?_⟩
  · simp [WriteSlice.write_elem, h]
  · simp [List.get?_eq_getElem?, List.getElem?_set_self, h]

/-- Witness for C2 at the concrete slice `[1, 2, 3]`, index `1`, value `5`. -/
theorem writeSlice_write_elem_in_bounds_witness :
    ∃ s', WriteSlice.write_elem [1, 2, 3] 1 5 = some s' ∧
      s'.get? 1 = some 5 :=
  writeSlice_write_elem_in_bounds [1, 2, 3] 1 5 (by decide)

/-- C3: `write_elem i v` panics (returns `none`) exactly when `i` is out of
bounds: every out-of-bounds call takes the fatal path and never returns
normally, and every in-bounds call returns normally. -/
theorem writeSlice_write_elem_panics_iff_oob {T : Type} (s : List T) (i : Nat)
    (v : T) :
    WriteSlice.write_elem s i v = none ↔ s.length ≤ i := by
  unfold WriteSlice.write_elem
  split <;> simp_all

/-- C4: for every slice and every in-bounds index `i`, `write_elem i v`
returns a slice of the same length in which every position `j ≠ i` is
unchanged. -/
theorem writeSlice_write_elem_frame {T : Type} (s : List T) (i : Nat) (v : T)
    (h : i < s.length) :
    ∃ s', WriteSlice.write_elem s i v = some s' ∧ s'.length = s.length ∧
      ∀ j, j ≠ i → s'.get? j = s.get? j := by
  refine ⟨s.set i v, by simp [WriteSlice.write_elem, h], by simp, ?_⟩
  intro j hj
  exact List.get?_set_ne v s (Ne.symm hj)

/-- Witness for C4 at the concrete slice `[1, 2, 3]`, index `0`, value `9`. -/
theorem writeSlice_write_elem_frame_witness :
    ∃ s', WriteSlice.write_elem [1, 2, 3] 0 9 = some s' ∧
      s'.length = ([1, 2, 3] : List Nat).length ∧
      ∀ j, j ≠ 0 → s'.get? j = ([1, 2, 3] : List Nat).get? j :=
  writeSlice_write_elem_frame [1, 2, 3] 0 9 (by decide)

/-- C6: the wrapper-struct design and the trait-based design are functionally
equivalent: the scalar handles' write operations produce the same cell
content, and the sequence handles' indexed writes agree on both the
panic/return outcome and the resulting contents. -/
theorem designs_equivalent {T : Type} :
    (∀ (c v : T), (WriteHandle.write { cell := c } v).cell =
      WriteRef.write c v) ∧
    (∀ (s : List T) (i : Nat) (v : T),
      (WriteSliceHandle.write_at { elems := s } i v).map
        WriteSliceHandle.elems = WriteSlice.write_elem s i v) := by
  refine ⟨fun c v => rfl, fun s i v => ?_⟩
  unfold WriteSliceHandle.write_at WriteSlice.write_elem
  split <;> rfl

/-- C7: every exclusive mutable reference converts into a scalar write
handle; the conversion is total (a Lean function, defined on every cell) and
each reference corresponds to exactly one handle, in both the trait-based
formulation (where the reference is itself the handle) and the
wrapper-struct formulation. -/
theorem handle_construction_total {T : Type} (c : T) :
    toWriteRef c = c ∧ ∃! h : WriteHandle T, h = WriteHandle.fromMut c :=
  ⟨rfl, WriteHandle.fromMut c, rfl, fun _ hy => hy⟩

/-- C8: writing `v1` then `v2` through the scalar handle leaves the cell
holding `v2` only — no trace of `v1` remains — and the composite equals a
single `write v2` (last write wins). -/
theorem writeRef_last_write_wins {T : Type} (cell v1 v2 : T) :
    WriteRef.write (WriteRef.write cell v1) v2 = v2 ∧
    WriteRef.write (WriteRef.write cell v1) v2 = WriteRef.write cell v2 :=
  ⟨rfl, rfl⟩

/-- C9: successive in-bounds writes through the sequence handle have no
ordering dependency: whenever `j` is a distinct in-bounds index, writes to
`i` and `j` commute; and for every in-bounds `i` — with no side condition on
any other index — a repeated write to `i` is fully overwritten by the last
write, leaving no observable trace of the earlier one. -/
theorem writeSlice_writes_independent {T : Type} (s : List T) (i j : Nat)
    (v u w : T) (hi : i < s.length) :
    (i ≠ j → j < s.length →
      ((WriteSlice.write_elem s i v).bind
          fun s' => WriteSlice.write_elem s' j u) =
        ((WriteSlice.write_elem s j u).bind
          fun s' => WriteSlice.write_elem s' i v)) ∧
    ((WriteSlice.write_elem s i v).bind
        fun s' => WriteSlice.write_elem s' i w) =
      WriteSlice.write_elem s i w := by
  constructor
  · intro hij hj
    unfold WriteSlice.write_elem
    rw [if_pos hi, if_pos hj]
    simp only [Option.some_bind, List.length_set]
    rw [if_pos hj, if_pos hi, List.set_comm _ _ _ hij]
  · unfold WriteSlice.write_elem
    rw [if_pos hi]
    simp only [Option.some_bind, List.length_set]
    rw [if_pos hi, List.set_set, if_pos hi]

/-- Witness for C9 at the concrete slice `[1, 2, 3]`: distinct indices
`0 ≠ 1` with values `7` and `8`, and repeated writes of `7` then `9` at
index `0`. -/
theorem writeSlice_writes_independent_witness :
    ((WriteSlice.write_elem [1, 2, 3] 0 7).bind
        fun s' => WriteSlice.write_elem s' 1 8) =
      ((WriteSlice.write_elem [1, 2, 3] 1 8).bind
        fun s' => WriteSlice.write_elem s' 0 7) ∧
    ((WriteSlice.write_elem [1, 2, 3] 0 7).bind
        fun s' => WriteSlice.write_elem s' 0 9) =
      WriteSlice.write_elem [1, 2, 3] 0 9 :=
  ⟨(writeSlice_writes_independent [1, 2, 3] 0 1 7 8 9 (by decide)).1
      (by decide) (by decide),
    (writeSlice_writes_independent [1, 2, 3] 0 1 7 8 9 (by decide)).2⟩

/-- C10: both operations are deterministic: from equal prior contents and
equal arguments they produce equal final contents, and `write_elem`
additionally produces the same panic/no-panic outcome (the `Option` results
are equal). -/
theorem write_ops_deterministic {T : Type} (c1 c2 v1 v2 : T) (s1 s2 : List T)
    (i1 i2 : Nat) (w1 w2 : T) (hc : c1 = c2) (hv : v1 = v2) (hs : s1 = s2)
    (hi : i1 = i2) (hw : w1 = w2) :
    WriteRef.write c1 v1 = WriteRef.write c2 v2 ∧
    WriteSlice.write_elem s1 i1 w1 = WriteSlice.write_elem s2 i2 w2 := by
  subst hc hv hs hi hw
  exact ⟨rfl, rfl⟩

/-- Witness for C10 at concrete equal inputs: cell `3`, value `0`, slice
`[4, 5]`, index `1`, value `6`. -/
theorem write_ops_deterministic_witness :
    WriteRef.write 3 0 = WriteRef.write 3 0 ∧
    WriteSlice.write_elem [4, 5] 1 6 = WriteSlice.write_elem [4, 5] 1 6 :=
  write_ops_deterministic 3 3 0 0 [4, 5] [4, 5] 1 1 6 6 rfl rfl rfl rfl rfl
